import Mathlib

/-!
Shallow embedding of `src/weather/weather.py`: a small MCP weather adapter
exposing two tools, `get_alerts` (active alerts by US state) and
`get_forecast` (multi-period forecast by coordinates), both built on a
single HTTP helper `make_nws_request`.

Modelling conventions:
* JSON values are the inductive `Json`; numeric JSON values are modelled
  as integers (the claims do not exercise floating point).
* Python's `None`-or-dict return of the fetch helper is `Option Json`.
* A Python exception escaping a handler (KeyError / TypeError /
  AttributeError) is `Except.error ()`; a normal return is `Except.ok s`.
* Network behaviour is abstracted as an oracle `String → Option Json`
  giving, per URL, the value `make_nws_request` would return there.
  `get_forecast` additionally returns the list of arguments passed to the
  fetch helper, so call counts can be stated.
-/

namespace Weather

/-- JSON values, as produced by `response.json()`. -/
inductive Json where
  | null : Json
  | bool : Bool → Json
  | num : Int → Json
  | str : String → Json
  | arr : List Json → Json
  | obj : List (String × Json) → Json
deriving Repr, BEq

/-- Python truthiness (`bool(x)`): `None`, `False`, `0`, `""`, `[]`, `{}`
are falsy, everything else truthy. -/
def Json.truthy : Json → Bool
  | .null => false
  | .bool b => b
  | .num n => n != 0
  | .str s => !(s == "")
  | .arr xs => !xs.isEmpty
  | .obj fs => !fs.isEmpty

mutual

/-- Python's `str()` on a non-string value falls back to `repr`-style
rendering; mutual recursion over the nested lists. -/
def pyRepr : Json → String
  | .null => "None"
  | .bool true => "True"
  | .bool false => "False"
  | .num n => toString n
  | .str s => "\x27" ++ s ++ "\x27"
  | .arr xs => "[" ++ String.intercalate ", " (pyReprList xs) ++ "]"
  | .obj fs => "\x7b" ++ String.intercalate ", " (pyReprFields fs) ++ "\x7d"

/-- `repr` of the elements of a list. -/
def pyReprList : List Json → List String
  | [] => []
  | x :: xs => pyRepr x :: pyReprList xs

/-- `repr` of the entries of a dict. -/
def pyReprFields : List (String × Json) → List String
  | [] => []
  | (k, v) :: fs => ("\x27" ++ k ++ "\x27: " ++ pyRepr v) :: pyReprFields fs

end

/-- Python `str(x)` as used by f-string interpolation. -/
def pyStr : Json → String
  | .str s => s
  | j => pyRepr j

/-- Python subscript `d[k]` with a string key: only a dict supports it;
a missing key (KeyError) or non-dict receiver (TypeError) is `none`,
i.e. a fatal error at the call site. -/
def Json.subscript : Json → String → Option Json
  | .obj fs, k => List.lookup k fs
  | _, _ => none

/-- Python membership `k in d`: key membership for dicts, element
equality for lists, substring test for strings; `none` models the
TypeError raised for other receivers. -/
def Json.hasMember : Json → String → Option Bool
  | .obj fs, k => some (List.lookup k fs).isSome
  | .arr xs, k => some (xs.any (fun j => match j with | .str s => s == k | _ => false))
  | .str s, k => some ((s.splitOn k).length ≥ 2)
  | _, _ => none

/-- Python iteration `for x in d`: list elements, string characters,
dict keys; `none` models the TypeError for non-iterables. -/
def Json.iterate : Json → Option (List Json)
  | .arr xs => some xs
  | .str s => some (s.data.map (fun c => .str (String.mk [c])))
  | .obj fs => some (fs.map (fun p => .str p.1))
  | _ => none

/-- Python slice `x[:5]`: lists and strings support it; dicts and
scalars raise TypeError (`none`). -/
def Json.sliceTo5 : Json → Option Json
  | .arr xs => some (.arr (xs.take 5))
  | .str s => some (.str (String.mk (s.data.take 5)))
  | _ => none

/-- A Python list comprehension (or loop collecting results) over a body
that may raise: evaluated left to right, the first fatal element makes
the whole construct fatal. -/
def traverseOption {α β : Type} (f : α → Option β) : List α → Option (List β)
  | [] => some []
  | x :: xs =>
    match f x, traverseOption f xs with
    | some y, some ys => some (y :: ys)
    | _, _ => none

-- Constants (weather.py lines 12-13)
def NWS_API_BASE : String := "https://api.weather.gov"
def USER_AGENT : String := "weather-app/1.0"

/-- Outcome of the one HTTP attempt made inside `make_nws_request`'s
`try` block: the request itself may raise (timeout, DNS failure,
connection reset — `networkError`), `raise_for_status` may raise on a
non-2xx status (`statusError`), or `response.json()` may raise on a
malformed body (`parseError`); otherwise the parsed body is available. -/
inductive HttpOutcome where
  | success : Json → HttpOutcome
  | networkError : HttpOutcome
  | statusError : HttpOutcome
  | parseError : HttpOutcome
deriving Repr, BEq

/-- `make_nws_request` (weather.py lines 18-32): every exception from the
attempt is caught by `except Exception: return None`; a successful
attempt returns the parsed JSON. Total by construction: no outcome
propagates an exception to the caller. -/
def make_nws_request : HttpOutcome → Option Json
  | .success j => some j
  | .networkError => none
  | .statusError => none
  | .parseError => none

/-- `format_alert` (weather.py lines 34-47): `feature["properties"]` is a
bare subscript (fatal when absent or when `feature` is not a dict);
each field of the property bag is read with `.get(key, default)` and
interpolated with `str()`. `none` models the fatal error. -/
def format_alert (feature : Json) : Option String :=
  match feature.subscript "properties" with
  | none => none
  | some props =>
    match props with
    | .obj fs => some (
        "\n                Event: " ++ pyStr ((List.lookup "event" fs).getD (.str "Unknown")) ++
        "\n                Area: " ++ pyStr ((List.lookup "areaDesc" fs).getD (.str "Unknown")) ++
        "\n                Severity: " ++ pyStr ((List.lookup "severity" fs).getD (.str "Unknown")) ++
        "\n                Description: " ++ pyStr ((List.lookup "description" fs).getD (.str "No description available")) ++
        "\n                Instructions: " ++ pyStr ((List.lookup "instruction" fs).getD (.str "No specific instructions provided")) ++
        "\n            ")
    | _ => none

/-- The URL built by `get_alerts` (weather.py line 59). -/
def alertsUrl (state : String) : String :=
  NWS_API_BASE ++ "/alerts/active/area/" ++ state

/-- `get_alerts` (weather.py lines 53-69).  The oracle gives, per URL,
the value the fetch helper returns there (`none` = absent-signal).
Mirrors the source line by line:
`if not data or "features" not in data` → fixed unable-to-fetch message;
`if not data["features"]` → fixed no-active-alerts message;
otherwise format every feature and join with `"\n---\n"`. -/
def get_alerts (oracle : String → Option Json) (state : String) :
    Except Unit String :=
  match oracle (alertsUrl state) with
  | none => .ok "Unable to fetch alerts or no alerts found."
  | some d =>
    if d.truthy = false then .ok "Unable to fetch alerts or no alerts found."
    else
      match d.hasMember "features" with
      | none => .error ()
      | some false => .ok "Unable to fetch alerts or no alerts found."
      | some true =>
        match d.subscript "features" with
        | none => .error ()
        | some feats =>
          if feats.truthy = false then .ok "No active alerts for this state."
          else
            match feats.iterate with
            | none => .error ()
            | some items =>
              match traverseOption format_alert items with
              | none => .error ()
              | some alerts => .ok (String.intercalate "\n---\n" alerts)

/-- The points URL built by `get_forecast` (weather.py line 80); the
coordinates enter as their decimal renderings. -/
def pointsUrl (latitude longitude : String) : String :=
  NWS_API_BASE ++ "/points/" ++ latitude ++ "," ++ longitude

/-- The per-period template of `get_forecast` (weather.py lines 96-103):
six bare subscripts (each fatal when missing) interpolated into a fixed
multi-line f-string. -/
def formatPeriod (period : Json) : Option String :=
  match period.subscript "name", period.subscript "temperature",
        period.subscript "temperatureUnit", period.subscript "windSpeed",
        period.subscript "windDirection", period.subscript "detailedForecast" with
  | some n, some t, some tu, some ws, some wd, some df =>
      some ("\n" ++ pyStr n ++ ":\nTemperature: " ++ pyStr t ++ "°" ++ pyStr tu ++
            "\nWind: " ++ pyStr ws ++ " " ++ pyStr wd ++ "\nForecast: " ++ pyStr df ++ "\n")
  | _, _, _, _, _, _ => none

/-- `get_forecast` (weather.py lines 72-105).  Besides the result it
returns the list of arguments passed to the fetch helper, in order, so
fetch-call counts are statable.  Mirrors the source:
`if not points_data` → first fixed message (one fetch performed);
`points_data["properties"]["forecast"]` → two bare subscripts, fatal when
missing; the second fetch receives that value (a non-string argument
makes the HTTP client raise inside `make_nws_request`'s `try`, which its
`except` collapses to the absent-signal, so the call still happens);
`if not forecast_data` → second fixed message; then
`forecast_data["properties"]["periods"]`, the slice `[:5]`, the
per-period template, and the `"\n---\n"` join. -/
def get_forecast (oracle : String → Option Json) (latitude longitude : String) :
    Except Unit String × List Json :=
  let points_url := pointsUrl latitude longitude
  match oracle points_url with
  | none => (.ok "Unable to fetch forecast data for this location.", [.str points_url])
  | some pd =>
    if pd.truthy = false then
      (.ok "Unable to fetch forecast data for this location.", [.str points_url])
    else
      match pd.subscript "properties" with
      | none => (.error (), [.str points_url])
      | some props =>
        match props.subscript "forecast" with
        | none => (.error (), [.str points_url])
        | some forecast_url =>
          let fd := match forecast_url with
                    | .str u => oracle u
                    | _ => none
          let log := [Json.str points_url, forecast_url]
          match fd with
          | none => (.ok "Unable to fetch detailed forecast.", log)
          | some f =>
            if f.truthy = false then (.ok "Unable to fetch detailed forecast.", log)
            else
              match f.subscript "properties" with
              | none => (.error (), log)
              | some fp =>
                match fp.subscript "periods" with
                | none => (.error (), log)
                | some periods =>
                  match periods.sliceTo5 with
                  | none => (.error (), log)
                  | some sliced =>
                    match sliced.iterate with
                    | none => (.error (), log)
                    | some items =>
                      match traverseOption formatPeriod items with
                      | none => (.error (), log)
                      | some forecasts =>
                        (.ok (String.intercalate "\n---\n" forecasts), log)

/-! Concrete fixtures used to exercise the handlers on explicit inputs. -/

/-- An oracle on which every fetch yields the absent-signal. -/
def noneOracle : String → Option Json := fun _ => none

/-- A points response that is present and truthy but whose property bag
has no "forecast" entry. -/
def pointsNoForecast : Json := .obj [("properties", .obj [])]

/-- An oracle whose points lookup returns `pointsNoForecast`. -/
def cOracleC1 : String → Option Json := fun _ => some pointsNoForecast

/-- A well-formed points response carrying a forecast URL. -/
def pointsResponse : Json :=
  .obj [("properties", .obj [("forecast",
    .str "https://api.weather.gov/gridpoints/BOU/62,61/forecast")])]

/-- An oracle where the points lookup succeeds but the forecast URL
fetch yields the absent-signal. -/
def c7Oracle : String → Option Json := fun url =>
  if url = pointsUrl "39.7" "-104.9" then some pointsResponse else none

/-- A forecast period with every required field present. -/
def periodNamed (nm : String) : Json :=
  .obj [("name", .str nm), ("temperature", .num 60), ("temperatureUnit", .str "F"),
        ("windSpeed", .str "5 mph"), ("windDirection", .str "NW"),
        ("detailedForecast", .str "Clear.")]

/-- Six distinct periods, to exercise the five-period truncation. -/
def c3Periods : List Json :=
  [periodNamed "P1", periodNamed "P2", periodNamed "P3",
   periodNamed "P4", periodNamed "P5", periodNamed "P6"]

/-- An oracle where both forecast fetches succeed, with six periods. -/
def c3Oracle : String → Option Json := fun url =>
  if url = pointsUrl "39.7" "-104.9" then some pointsResponse
  else if url = "https://api.weather.gov/gridpoints/BOU/62,61/forecast" then
    some (.obj [("properties", .obj [("periods", .arr c3Periods)])])
  else none

/-- An alert feature with every optional property present. -/
def alertFeatureFull : Json :=
  .obj [("properties", .obj [("event", .str "Tornado Warning"),
    ("areaDesc", .str "Denver County"), ("severity", .str "Extreme"),
    ("description", .str "Take cover."), ("instruction", .str "Move to a basement.")])]

/-- An alert feature whose property bag is present but empty: every
optional field must default. -/
def alertFeatureEmptyProps : Json := .obj [("properties", .obj [])]

/-- Two alert features, one full and one fully defaulted. -/
def c4Feats : List Json := [alertFeatureFull, alertFeatureEmptyProps]

/-- An oracle whose alerts response holds `c4Feats`. -/
def c4Oracle : String → Option Json := fun url =>
  if url = alertsUrl "CO" then some (.obj [("features", .arr c4Feats)]) else none

/-- An oracle whose alerts response has an empty feature list. -/
def c5Oracle : String → Option Json := fun _ =>
  some (.obj [("features", .arr [])])

/-- An oracle whose alerts response is a truthy dict with no "features"
key. -/
def c6ObjOracle : String → Option Json := fun _ =>
  some (.obj [("type", .str "FeatureCollection")])

/-- An alert feature with no "properties" key at all. -/
def c10Feature : Json := .obj [("type", .str "Feature")]

/-- An oracle whose alerts response holds the single feature lacking a
property bag. -/
def c10Oracle : String → Option Json := fun _ =>
  some (.obj [("features", .arr [c10Feature])])

/-! Helper lemmas shared by the claim theorems. -/

/-- A dict on which a key lookup succeeded is nonempty, hence truthy. -/
theorem truthy_of_lookup {fs : List (String × Json)} {k : String} {v : Json}
    (h : List.lookup k fs = some v) : (Json.obj fs).truthy = true := by
  cases fs with
  | nil => simp [List.lookup] at h
  | cons p ps => simp [Json.truthy]

/-- When every element maps to `some`, the traversal succeeds and yields
exactly the mapped defaults. -/
theorem traverseOption_eq_some {α β : Type} (f : α → Option β) (d : β) :
    ∀ xs : List α, (∀ x ∈ xs, (f x).isSome) →
      traverseOption f xs = some (xs.map (fun x => (f x).getD d))
  | [], _ => rfl
  | x :: xs, h => by
    obtain ⟨y, hy⟩ := Option.isSome_iff_exists.mp (h x (List.mem_cons_self x xs))
    have ih := traverseOption_eq_some f d xs (fun z hz => h z (List.mem_cons_of_mem x hz))
    simp [traverseOption, hy, ih]

/-- One fatal element makes the whole traversal fatal. -/
theorem traverseOption_eq_none {α β : Type} (f : α → Option β) :
    ∀ xs : List α, ∀ a ∈ xs, f a = none → traverseOption f xs = none
  | x :: xs, a, ha, hfa => by
    rcases List.mem_cons.mp ha with rfl | hmem
    · simp [traverseOption, hfa]
    · have ih := traverseOption_eq_none f xs a hmem hfa
      simp [traverseOption, ih]

/-- `str()` after `.get(key, default)` with a string default, rephrased
as an explicit case split on presence of the key. -/
theorem pyStr_getD (o : Option Json) (d : String) :
    pyStr (o.getD (.str d)) = match o with | some v => pyStr v | none => d := by
  cases o <;> rfl

/-- Reduction of `get_alerts` once the response is known to be a dict
with a "features" key holding a list. -/
theorem get_alerts_eq_of_features (oracle : String → Option Json) (state : String)
    (fs : List (String × Json)) (feats : List Json)
    (h1 : oracle (alertsUrl state) = some (.obj fs))
    (h2 : List.lookup "features" fs = some (.arr feats)) :
    get_alerts oracle state =
      if feats.isEmpty then .ok "No active alerts for this state."
      else
        match traverseOption format_alert feats with
        | none => .error ()
        | some alerts => .ok (String.intercalate "\n---\n" alerts) := by
  have hfs : fs ≠ [] := by
    rintro rfl
    simp [List.lookup] at h2
  simp only [get_alerts, h1, Json.truthy, Json.hasMember, Json.subscript, h2,
    Option.isSome_some, Json.iterate]
  by_cases hfe : feats.isEmpty <;> simp [hfe, hfs]

/-! Claim theorems. -/

/-- C2: whenever the points fetch returns the absent-signal,
`get_forecast` returns exactly
"Unable to fetch forecast data for this location." and the fetch helper
was invoked exactly once (on the points URL). -/
theorem C2_points_failure_single_fetch (oracle : String → Option Json)
    (latitude longitude : String)
    (h : oracle (pointsUrl latitude longitude) = none) :
    get_forecast oracle latitude longitude =
      (.ok "Unable to fetch forecast data for this location.",
        [.str (pointsUrl latitude longitude)]) ∧
    (get_forecast oracle latitude longitude).2.length = 1 := by
  refine ⟨?_, ?_⟩ <;> simp [get_forecast, h]

/-- Witness for C2 at a concrete oracle and coordinates. -/
theorem C2_points_failure_single_fetch_witness :
    get_forecast noneOracle "39.7" "-104.9" =
      (.ok "Unable to fetch forecast data for this location.",
        [.str (pointsUrl "39.7" "-104.9")]) ∧
    (get_forecast noneOracle "39.7" "-104.9").2.length = 1 :=
  C2_points_failure_single_fetch noneOracle "39.7" "-104.9" rfl

/-- C7: when the points lookup succeeds (a dict whose property bag
carries a forecast URL string) but fetching that URL yields the
absent-signal, `get_forecast` returns exactly
"Unable to fetch detailed forecast." -/
theorem C7_detail_failure_message (oracle : String → Option Json)
    (latitude longitude u : String) (fs pfs : List (String × Json))
    (h1 : oracle (pointsUrl latitude longitude) = some (.obj fs))
    (h2 : List.lookup "properties" fs = some (.obj pfs))
    (h3 : List.lookup "forecast" pfs = some (.str u))
    (h4 : oracle u = none) :
    (get_forecast oracle latitude longitude).1 =
      .ok "Unable to fetch detailed forecast." := by
  have hfs : fs ≠ [] := by rintro rfl; simp [List.lookup] at h2
  simp [get_forecast, h1, Json.truthy, hfs, Json.subscript, h2, h3, h4]

/-- Witness for C7 at a concrete oracle and coordinates. -/
theorem C7_detail_failure_message_witness :
    (get_forecast c7Oracle "39.7" "-104.9").1 =
      .ok "Unable to fetch detailed forecast." :=
  C7_detail_failure_message c7Oracle "39.7" "-104.9"
    "https://api.weather.gov/gridpoints/BOU/62,61/forecast"
    [("properties", .obj [("forecast",
      .str "https://api.weather.gov/gridpoints/BOU/62,61/forecast")])]
    [("forecast", .str "https://api.weather.gov/gridpoints/BOU/62,61/forecast")]
    rfl rfl rfl rfl

/-- C1 counterexample: a points response that is present and truthy but
lacks the "forecast" key makes `get_forecast` fail fatally (KeyError on
line 87), not return a fixed user-facing message. -/
theorem C1_counterexample_missing_forecast_fatal :
    (get_forecast cOracleC1 "39.0" "-104.0").1 = .error () := rfl

/-- C1 amended: when the points response is present and truthy but the
chained lookup of "properties" then "forecast" fails, `get_forecast`
raises (models the bare subscripts on line 87) instead of returning a
fixed message; only an absent or falsy points response is handled. -/
theorem C1_missing_forecast_fatal (oracle : String → Option Json)
    (latitude longitude : String) (pd : Json)
    (h1 : oracle (pointsUrl latitude longitude) = some pd)
    (h2 : pd.truthy = true)
    (h3 : (pd.subscript "properties").bind
      (fun props => props.subscript "forecast") = none) :
    (get_forecast oracle latitude longitude).1 = .error () := by
  cases hp : pd.subscript "properties" with
  | none => simp [get_forecast, h1, h2, hp]
  | some props =>
    have h3' : props.subscript "forecast" = none := by
      rw [hp] at h3; simpa using h3
    simp [get_forecast, h1, h2, hp, h3']

/-- Witness for the amended C1 at a concrete oracle. -/
theorem C1_missing_forecast_fatal_witness :
    cOracleC1 (pointsUrl "39.0" "-104.0") = some pointsNoForecast ∧
    (get_forecast cOracleC1 "39.0" "-104.0").1 = .error () :=
  ⟨rfl, C1_missing_forecast_fatal cOracleC1 "39.0" "-104.0" pointsNoForecast rfl rfl rfl⟩

/-- C3: when both fetches succeed and the response carries a period list
of length at least five whose first five periods all format, the result
is exactly the first five periods' blocks, in upstream order, joined by
"\n---\n" — five blocks in total. -/
theorem C3_forecast_truncates_to_five (oracle : String → Option Json)
    (latitude longitude u : String) (fs pfs gs qs : List (String × Json))
    (ps : List Json)
    (h1 : oracle (pointsUrl latitude longitude) = some (.obj fs))
    (h2 : List.lookup "properties" fs = some (.obj pfs))
    (h3 : List.lookup "forecast" pfs = some (.str u))
    (h4 : oracle u = some (.obj gs))
    (h5 : List.lookup "properties" gs = some (.obj qs))
    (h6 : List.lookup "periods" qs = some (.arr ps))
    (h7 : 5 ≤ ps.length)
    (h8 : ∀ p ∈ ps.take 5, (formatPeriod p).isSome) :
    (get_forecast oracle latitude longitude).1 =
      .ok (String.intercalate "\n---\n"
        ((ps.take 5).map (fun p => (formatPeriod p).getD ""))) ∧
    ((ps.take 5).map (fun p => (formatPeriod p).getD "")).length = 5 := by
  have hfs : fs ≠ [] := by rintro rfl; simp [List.lookup] at h2
  have hgs : gs ≠ [] := by rintro rfl; simp [List.lookup] at h5
  have htr := traverseOption_eq_some formatPeriod "" (ps.take 5) h8
  refine ⟨?_, ?_⟩
  · simp [get_forecast, h1, Json.truthy, hfs, Json.subscript, h2, h3, h4, hgs,
      h5, h6, Json.sliceTo5, Json.iterate, htr]
  · simp [List.length_take, Nat.min_eq_left h7]

/-- Witness for C3 at a concrete oracle with six periods. -/
theorem C3_forecast_truncates_to_five_witness :
    (get_forecast c3Oracle "39.7" "-104.9").1 =
      .ok (String.intercalate "\n---\n"
        ((c3Periods.take 5).map (fun p => (formatPeriod p).getD ""))) ∧
    ((c3Periods.take 5).map (fun p => (formatPeriod p).getD "")).length = 5 :=
  C3_forecast_truncates_to_five c3Oracle "39.7" "-104.9"
    "https://api.weather.gov/gridpoints/BOU/62,61/forecast"
    [("properties", .obj [("forecast",
      .str "https://api.weather.gov/gridpoints/BOU/62,61/forecast")])]
    [("forecast", .str "https://api.weather.gov/gridpoints/BOU/62,61/forecast")]
    [("properties", .obj [("periods", .arr c3Periods)])]
    [("periods", .arr c3Periods)] c3Periods
    rfl rfl rfl rfl rfl rfl (by simp [c3Periods])
    (by intro p hp; simp [c3Periods] at hp
        rcases hp with rfl | rfl | rfl | rfl | rfl <;> rfl)

/-- C4: with a nonempty feature list whose features all format,
`get_alerts` returns the features' blocks joined by "\n---\n", one block
per feature in upstream order; and a feature whose property bag is a
dict renders with each absent optional field replaced by its fixed
placeholder ("Unknown" for event, areaDesc and severity, the two longer
placeholders for description and instruction). -/
theorem C4_alerts_blocks_and_defaults (oracle : String → Option Json)
    (state : String) (fs : List (String × Json)) (feats : List Json)
    (h1 : oracle (alertsUrl state) = some (.obj fs))
    (h2 : List.lookup "features" fs = some (.arr feats))
    (h3 : feats ≠ [])
    (h4 : ∀ f ∈ feats, (format_alert f).isSome) :
    get_alerts oracle state =
      .ok (String.intercalate "\n---\n"
        (feats.map (fun f => (format_alert f).getD ""))) ∧
    (feats.map (fun f => (format_alert f).getD "")).length = feats.length ∧
    ∀ pfs : List (String × Json),
      format_alert (Json.obj [("properties", Json.obj pfs)]) = some (
        "\n                Event: "
          ++ (match List.lookup "event" pfs with
              | some v => pyStr v | none => "Unknown")
          ++ "\n                Area: "
          ++ (match List.lookup "areaDesc" pfs with
              | some v => pyStr v | none => "Unknown")
          ++ "\n                Severity: "
          ++ (match List.lookup "severity" pfs with
              | some v => pyStr v | none => "Unknown")
          ++ "\n                Description: "
          ++ (match List.lookup "description" pfs with
              | some v => pyStr v | none => "No description available")
          ++ "\n                Instructions: "
          ++ (match List.lookup "instruction" pfs with
              | some v => pyStr v | none => "No specific instructions provided")
          ++ "\n            ") := by
  refine ⟨?_, by simp, ?_⟩
  · rw [get_alerts_eq_of_features oracle state fs feats h1 h2]
    have htr := traverseOption_eq_some format_alert "" feats h4
    simp [h3, htr]
  · intro pfs
    simp [format_alert, Json.subscript, List.lookup, pyStr_getD]

/-- Witness for C4 at a concrete oracle with two features; the second
conjunct instantiates the defaulting statement at the empty property
bag, where every placeholder appears literally. -/
theorem C4_alerts_blocks_and_defaults_witness :
    get_alerts c4Oracle "CO" =
      .ok (String.intercalate "\n---\n"
        (c4Feats.map (fun f => (format_alert f).getD ""))) ∧
    format_alert (Json.obj [("properties", Json.obj [])]) = some
      ("\n                Event: Unknown\n                Area: Unknown"
        ++ "\n                Severity: Unknown"
        ++ "\n                Description: No description available"
        ++ "\n                Instructions: No specific instructions provided"
        ++ "\n            ") := by
  have h := C4_alerts_blocks_and_defaults c4Oracle "CO"
    [("features", .arr c4Feats)] c4Feats rfl rfl
    (by simp [c4Feats])
    (by intro f hf; simp [c4Feats] at hf; rcases hf with rfl | rfl <;> rfl)
  exact ⟨h.1, by simpa using h.2.2 []⟩

/-- C5: an alerts response whose "features" value is the empty list
makes `get_alerts` return exactly "No active alerts for this state." -/
theorem C5_empty_features_message (oracle : String → Option Json)
    (state : String) (fs : List (String × Json))
    (h1 : oracle (alertsUrl state) = some (.obj fs))
    (h2 : List.lookup "features" fs = some (.arr [])) :
    get_alerts oracle state = .ok "No active alerts for this state." := by
  rw [get_alerts_eq_of_features oracle state fs [] h1 h2]
  simp

/-- Witness for C5 at a concrete oracle. -/
theorem C5_empty_features_message_witness :
    get_alerts c5Oracle "CA" = .ok "No active alerts for this state." :=
  C5_empty_features_message c5Oracle "CA" [("features", .arr [])] rfl rfl

/-- C6: `get_alerts` returns exactly
"Unable to fetch alerts or no alerts found." both when the fetch yields
the absent-signal and when the response is a dict with no "features"
key (empty or not). -/
theorem C6_absent_or_missing_features_message (oracle : String → Option Json)
    (state : String) :
    (oracle (alertsUrl state) = none →
      get_alerts oracle state = .ok "Unable to fetch alerts or no alerts found.") ∧
    (∀ fs : List (String × Json), oracle (alertsUrl state) = some (.obj fs) →
      List.lookup "features" fs = none →
      get_alerts oracle state = .ok "Unable to fetch alerts or no alerts found.") := by
  constructor
  · intro h; simp [get_alerts, h]
  · intro fs h1 h2
    by_cases hfs : fs.isEmpty <;>
      simp [get_alerts, h1, Json.truthy, hfs, Json.hasMember, h2]

/-- Witness for C6: one oracle whose fetch is absent, one whose response
is a truthy dict without "features". -/
theorem C6_absent_or_missing_features_message_witness :
    get_alerts noneOracle "CA" = .ok "Unable to fetch alerts or no alerts found." ∧
    get_alerts c6ObjOracle "CA" = .ok "Unable to fetch alerts or no alerts found." :=
  ⟨(C6_absent_or_missing_features_message noneOracle "CA").1 rfl,
   (C6_absent_or_missing_features_message c6ObjOracle "CA").2
     [("type", .str "FeatureCollection")] rfl rfl⟩

/-- C8: `make_nws_request` is total over every outcome of the underlying
HTTP attempt — it never propagates an exception (its codomain is the
plain optional value) — and it collapses each failure mode (request
exception, non-success status, malformed body) to the absent-signal
while returning the parsed JSON on success. -/
theorem C8_make_nws_request_never_raises :
    (∀ j : Json, make_nws_request (.success j) = some j) ∧
    make_nws_request .networkError = none ∧
    make_nws_request .statusError = none ∧
    make_nws_request .parseError = none :=
  ⟨fun _ => rfl, rfl, rfl, rfl⟩

/-- C9: formatting is deterministic — both `format_alert` and the
per-period template are pure functions of the input record alone (the
embedding is a function, with no clock, randomness or locale input), so
identical input records yield identical output strings. -/
theorem C9_formatting_deterministic (f1 f2 p1 p2 : Json)
    (hf : f1 = f2) (hp : p1 = p2) :
    format_alert f1 = format_alert f2 ∧ formatPeriod p1 = formatPeriod p2 := by
  subst hf; subst hp; exact ⟨rfl, rfl⟩

/-- Witness for C9 at concrete records. -/
theorem C9_formatting_deterministic_witness :
    format_alert alertFeatureFull = format_alert alertFeatureFull ∧
    formatPeriod (periodNamed "Tonight") = formatPeriod (periodNamed "Tonight") :=
  C9_formatting_deterministic alertFeatureFull alertFeatureFull
    (periodNamed "Tonight") (periodNamed "Tonight") rfl rfl

/-- C10: the property bag of a feature is required — `format_alert` on a
feature dict with no "properties" key is fatal (KeyError on line 36),
and `get_alerts` on a response whose feature list contains such a
feature is fatal for the whole call, not defaulted. -/
theorem C10_missing_properties_fatal :
    (∀ fs : List (String × Json), List.lookup "properties" fs = none →
      format_alert (Json.obj fs) = none) ∧
    (∀ (oracle : String → Option Json) (state : String)
        (fs : List (String × Json)) (feats : List Json) (f : Json),
      oracle (alertsUrl state) = some (.obj fs) →
      List.lookup "features" fs = some (.arr feats) →
      f ∈ feats → format_alert f = none →
      get_alerts oracle state = .error ()) := by
  constructor
  · intro fs h
    simp [format_alert, Json.subscript, h]
  · intro oracle state fs feats f h1 h2 hmem hfa
    rw [get_alerts_eq_of_features oracle state fs feats h1 h2]
    have hne : feats ≠ [] := List.ne_nil_of_mem hmem
    have htr := traverseOption_eq_none format_alert feats f hmem hfa
    simp [hne, htr]

/-- Witness for C10: the bare feature fails to format, and an alerts
response containing it makes the whole `get_alerts` call fatal. -/
theorem C10_missing_properties_fatal_witness :
    format_alert c10Feature = none ∧ get_alerts c10Oracle "CA" = .error () :=
  ⟨C10_missing_properties_fatal.1 [("type", .str "Feature")] rfl,
   C10_missing_properties_fatal.2 c10Oracle "CA"
     [("features", .arr [c10Feature])] [c10Feature] c10Feature
     rfl rfl (List.mem_cons_self c10Feature []) rfl⟩

end Weather
